import Mathlib

/-!
# Verification of the SigmAIQ-Agentic evaluation and scoring pipeline

A shallow embedding of `src/evaluation/evaluate.py` (the authoritative
evaluation harness) together with the 429-retrying `generate_rule` of
`src/benchmark-ai/evaluation/evaluate.py`.

Python dynamic values are modelled by `PyVal`; Python operations that can
raise are modelled in `Except Unit` (the error standing for the raised
exception).  Library collaborators that live outside this repository are
modelled as parameters:

* `PyLib.jsonLoads` models `json.loads` on a string argument (`.error` is a
  raised `json.JSONDecodeError`);
* `PyLib.strFloat` models `float` applied to a string (`.error` is a raised
  `ValueError`);
* `Env.yamlLoad` models `yaml.safe_load` (`.error` is a raised
  `yaml.YAMLError`);
* `Env.evalStrings` models the langchain `string_distance` evaluator call
  `evaluator.evaluate_strings(...)["score"]` (`.error` is any exception in
  that block).  Per the langchain documentation the returned score is a
  normalized string-edit distance: lower means more similar, and the
  distance of a string to itself is `0`.
* `Env.gen` and `Env.judge` model the HTTP calls `generate_rule` and
  `get_judge_comparison` as oracles returning either a value or a raised
  exception message.

All scores are modelled as rationals (`ℚ`).
-/

namespace SigmaEval

/-- A Python value, as far as the evaluation pipeline inspects them. -/
inductive PyVal where
  | none
  | bool (b : Bool)
  | num (q : ℚ)
  | str (s : String)
  | list (xs : List PyVal)
  | dict (entries : List (String × PyVal))

mutual

/-- Boolean equality on Python values (Python `==` restricted to the shapes
the pipeline compares). -/
def PyVal.beq : PyVal → PyVal → Bool
  | .none, .none => true
  | .bool a, .bool b => a == b
  | .num a, .num b => a == b
  | .str a, .str b => a == b
  | .list xs, .list ys => beqValList xs ys
  | .dict xs, .dict ys => beqEntryList xs ys
  | _, _ => false

/-- Pointwise equality of Python lists. -/
def beqValList : List PyVal → List PyVal → Bool
  | [], [] => true
  | a :: as, b :: bs => PyVal.beq a b && beqValList as bs
  | _, _ => false

/-- Pointwise equality of dict entry lists. -/
def beqEntryList : List (String × PyVal) → List (String × PyVal) → Bool
  | [], [] => true
  | (k1, v1) :: as, (k2, v2) :: bs =>
      k1 == k2 && PyVal.beq v1 v2 && beqEntryList as bs
  | _, _ => false

end

instance : BEq PyVal := ⟨PyVal.beq⟩

/-- Whether a `PyVal` is a number. -/
def PyVal.isNum : PyVal → Bool
  | .num _ => true
  | _ => false

/-- Whether a `PyVal` is a string. -/
def PyVal.isStr : PyVal → Bool
  | .str _ => true
  | _ => false

/-- First-occurrence lookup in a Python dict (keys are unique in Python). -/
def dictLookup (d : List (String × PyVal)) (k : String) : Option PyVal :=
  (d.find? (fun p => p.1 == k)).map Prod.snd

/-- Python dict assignment `d[k] = v`: replace in place if the key exists,
append otherwise. -/
def dictSet (d : List (String × PyVal)) (k : String) (v : PyVal) :
    List (String × PyVal) :=
  if d.any (fun p => p.1 == k) then
    d.map (fun p => if p.1 == k then (k, v) else p)
  else
    d ++ [(k, v)]

/-- `needle` occurs as a contiguous infix of `hay` (character lists). -/
def listInfix (needle : List Char) : List Char → Bool
  | [] => needle.isEmpty
  | c :: t => needle.isPrefixOf (c :: t) || listInfix needle t

/-- Python substring test `needle in hay` on strings. -/
def strIn (needle hay : String) : Bool :=
  listInfix needle.toList hay.toList

/-- Python membership `field in v`.  Key membership for dicts, substring
test for strings, element equality for lists; `TypeError` (`.error`) for
values that are not containers (`None`, booleans, numbers). -/
def pyIn (field : String) : PyVal → Except Unit Bool
  | .dict d => .ok (d.any (fun p => p.1 == field))
  | .str s => .ok (strIn field s)
  | .list xs => .ok (xs.contains (.str field))
  | _ => .error ()

/-- Python `v.get(key, default)`.  Only dicts have `.get`; anything else
raises `AttributeError` (`.error`). -/
def pyGet (v : PyVal) (key : String) (default : PyVal) : Except Unit PyVal :=
  match v with
  | .dict d => .ok ((dictLookup d key).getD default)
  | _ => .error ()

/-- Stdlib collaborators used by the score aggregator. -/
structure PyLib where
  jsonLoads : String → Except Unit PyVal
  strFloat : String → Except Unit ℚ

/-- Python `float(v)`: numbers convert, booleans convert to `1`/`0`,
strings go through decimal parsing, everything else raises `TypeError`. -/
def pyFloat (lib : PyLib) : PyVal → Except Unit ℚ
  | .num q => .ok q
  | .bool b => .ok (if b then 1 else 0)
  | .str s => lib.strFloat s
  | _ => .error ()

/-- The `score_mapping` table of `calculate_combined_score` together with
its `.get(_, 0.5)` default. -/
def scoreMapping (s : String) : ℚ :=
  if s = "excellent" then 1
  else if s = "good" then 3/4
  else if s = "fair" then 1/2
  else if s = "poor" then 1/4
  else if s = "bad" then 0
  else 1/2

/-- The `llm_judgment` normalization block of `calculate_combined_score`
(`src/evaluation/evaluate.py` lines 196-220).  The surrounding
`try/except (ValueError, AttributeError, TypeError, json.JSONDecodeError)`
turns every failure of `json.loads` / `float` into the default `0.5`. -/
def extractLlmScore (lib : PyLib) (v : PyVal) : ℚ :=
  match v with
  | .str s =>
    match lib.jsonLoads s with
    | .error _ => 1/2
    | .ok (.dict d) =>
      match pyFloat lib ((dictLookup d "score").getD (.num (1/2))) with
      | .ok q => q
      | .error _ => 1/2
    | .ok _ => scoreMapping s.toLower
  | w =>
    match pyFloat lib w with
    | .ok q => q
    | .error _ => 1/2

/-- The fixed weight table of `calculate_combined_score`. -/
def weights : List (String × ℚ) :=
  [("valid_yaml", 15/100), ("has_required_fields", 20/100),
   ("detection_logic_similarity", 25/100), ("metadata_completeness", 10/100),
   ("llm_judgment", 30/100)]

/-- Python `v * w` with `w` a float, as used in the weighted sum.  Only
numbers (and booleans) multiply; anything else raises `TypeError`. -/
def pyMulFloat : PyVal → ℚ → Except Unit ℚ
  | .num q, w => .ok (q * w)
  | .bool b, w => .ok (if b then w else 0)
  | _, _ => .error ()

/-- Python `min(a, b)` on floats. -/
def pyMin (a b : ℚ) : ℚ := if a ≤ b then a else b

/-- Python `max(a, b)` on floats. -/
def pyMax (a b : ℚ) : ℚ := if b ≤ a then a else b

/-- The generator-sum
`sum(mfc[k] * weights[k] for k in weights if k in mfc)`:
each present metric is multiplied by its weight (raising `TypeError` for
non-numeric values) and added. -/
def weightedSum (mfc : List (String × PyVal)) : List (String × ℚ) → Except Unit ℚ
  | [] => .ok 0
  | kw :: ws =>
    match dictLookup mfc kw.1 with
    | some v =>
      match pyMulFloat v kw.2 with
      | .error e => .error e
      | .ok t =>
        match weightedSum mfc ws with
        | .error e => .error e
        | .ok rest => .ok (t + rest)
    | Option.none => weightedSum mfc ws

/-- The `metrics_for_calculation` dict: a copy of the metrics with
`llm_judgment` replaced by its normalized numeric score when present. -/
def metricsForCalculation (lib : PyLib) (metrics : List (String × PyVal)) :
    List (String × PyVal) :=
  match dictLookup metrics "llm_judgment" with
  | some v => dictSet metrics "llm_judgment" (.num (extractLlmScore lib v))
  | Option.none => metrics

/-- `calculate_combined_score` (`src/evaluation/evaluate.py` lines
178-230): normalize `llm_judgment` if present, take the weighted sum of
the metrics that appear in the weight table, and clamp to `[0, 1]` with
`min(max(overall_score, 0.0), 1.0)`.  An `.error` result is an uncaught
`TypeError` from multiplying a non-numeric metric value. -/
def calculate_combined_score (lib : PyLib) (metrics : List (String × PyVal)) :
    Except Unit ℚ :=
  match weightedSum (metricsForCalculation lib metrics) weights with
  | .error e => .error e
  | .ok s => .ok (pyMin (pyMax s 0) 1)

/-- The single-quote character used by Python `repr` of strings. -/
def pyQuote : String := String.singleton (Char.ofNat 39)

mutual

/-- Python `repr` of a value, as far as the pipeline renders them (used by
`str(...)` on the `detection` sub-structures before handing them to the
string-distance evaluator). -/
def pyRepr : PyVal → String
  | .none => "None"
  | .bool true => "True"
  | .bool false => "False"
  | .num q => toString q
  | .str s => pyQuote ++ s ++ pyQuote
  | .list xs => "[" ++ pyReprList xs ++ "]"
  | .dict d => "\x7b" ++ pyReprDict d ++ "\x7d"

/-- Comma-separated `repr` of list elements. -/
def pyReprList : List PyVal → String
  | [] => ""
  | [x] => pyRepr x
  | x :: y :: xs => pyRepr x ++ ", " ++ pyReprList (y :: xs)

/-- Comma-separated `repr` of dict entries. -/
def pyReprDict : List (String × PyVal) → String
  | [] => ""
  | [(k, v)] => pyQuote ++ k ++ pyQuote ++ ": " ++ pyRepr v
  | (k, v) :: e :: xs =>
      pyQuote ++ k ++ pyQuote ++ ": " ++ pyRepr v ++ ", " ++ pyReprDict (e :: xs)

end

/-- Python `str(v)`: a string renders to itself, everything else to its
`repr`. -/
def pyStr : PyVal → String
  | .str s => s
  | v => pyRepr v

/-- External collaborators of the evaluation harness. -/
structure Env where
  lib : PyLib
  /-- `yaml.safe_load`; `.error` is a raised `yaml.YAMLError`. -/
  yamlLoad : String → Except Unit PyVal
  /-- The langchain `string_distance` evaluator:
  `evaluator.evaluate_strings(prediction, reference)["score"]`.  Per the
  langchain documentation this score is a normalized string-edit distance
  (lower = more similar, `0` for identical strings); `.error` is any
  exception raised inside that block. -/
  evalStrings : String → String → Except Unit ℚ
  /-- The `generate_rule` HTTP call of `src/evaluation/evaluate.py`;
  `.error` is the `Exception` it raises on request failure. -/
  gen : String → Except String String
  /-- The `get_judge_comparison` HTTP call; `.error` is the `Exception` it
  raises on request failure. -/
  judge : String → String → Except String PyVal

/-- The fixed required-field list of `calculate_langchain_metrics`. -/
def requiredFields : List String := ["title", "detection", "logsource"]

/-- The fixed metadata-field list of `calculate_langchain_metrics`. -/
def metadataFields : List String := ["description", "author", "date", "level", "tags"]

/-- `sum(1 for field in fields if field in v)`; the `in` test can raise
`TypeError` for non-container values of `v`. -/
def countPresent (v : PyVal) : List String → Except Unit ℚ
  | [] => .ok 0
  | f :: fs =>
    match pyIn f v with
    | .error e => .error e
    | .ok b =>
      match countPresent v fs with
      | .error e => .error e
      | .ok rest => .ok ((if b then 1 else 0) + rest)

/-- `sum(1 for field in fields if field in v) / len(fields)`. -/
def fieldsPresent (fields : List String) (v : PyVal) : Except Unit ℚ :=
  match countPresent v fields with
  | .error e => .error e
  | .ok cnt => .ok (cnt / (fields.length : ℚ))

/-- The inner `try` block computing `detection_logic_similarity`: render
each side's `detection` entry (default `{}`) with `str`, call the
string-distance evaluator, and store its raw score; any exception in the
block degrades the metric to `0.0`. -/
def detectionSimilarity (env : Env) (g e : PyVal) : ℚ :=
  match pyGet g "detection" (.dict []) with
  | .error _ => 0
  | .ok gd =>
    match pyGet e "detection" (.dict []) with
    | .error _ => 0
    | .ok ed =>
      match env.evalStrings (pyStr gd) (pyStr ed) with
      | .error _ => 0
      | .ok q => q

/-- Dynamic result of `calculate_langchain_metrics`: the success path
returns a bare metrics dict, the `yaml.YAMLError` handler returns a
`(dict, 0.0)` *tuple*, and a `TypeError` from a field-membership test on a
non-container parse result propagates as an uncaught exception. -/
inductive LCResult where
  | metricsDict (m : List (String × ℚ))
  | yamlErrorTuple (m : List (String × ℚ)) (score : ℚ)
  | raised (e : String)
deriving DecidableEq

/-- The zeroed metric dict of the `yaml.YAMLError` handler. -/
def zeroMetrics : List (String × ℚ) :=
  [("valid_yaml", 0), ("has_required_fields", 0),
   ("detection_logic_similarity", 0), ("metadata_completeness", 0)]

/-- `calculate_langchain_metrics` (`src/evaluation/evaluate.py` lines
122-175): parse both documents, then compute field presence, detection
similarity and metadata completeness on the parsed candidate. -/
def calculate_langchain_metrics (env : Env) (generated_rule expected_rule : String) :
    LCResult :=
  match env.yamlLoad generated_rule with
  | .error _ => .yamlErrorTuple zeroMetrics 0
  | .ok g =>
    match env.yamlLoad expected_rule with
    | .error _ => .yamlErrorTuple zeroMetrics 0
    | .ok e =>
      match fieldsPresent requiredFields g with
      | .error _ => .raised "TypeError: argument is not iterable"
      | .ok req =>
        let sim := detectionSimilarity env g e
        match fieldsPresent metadataFields g with
        | .error _ => .raised "TypeError: argument is not iterable"
        | .ok meta =>
          .metricsDict
            [("valid_yaml", 1), ("has_required_fields", req),
             ("detection_logic_similarity", sim), ("metadata_completeness", meta)]

/-- The exception raised by `{**langchain_metrics, ...}` when
`calculate_langchain_metrics` returned its `(dict, 0.0)` tuple. -/
def mergeTypeError : String := "TypeError: tuple object is not a mapping"

/-- `evaluate_rule` (`src/evaluation/evaluate.py` lines 94-120): langchain
metrics first, then the judge call, then the dict merge
`{**langchain_metrics, "llm_judgment": llm_judgment}` and the combined
score.  Its `except` clause re-raises, so every exception propagates to
the caller (modelled as `.error`). -/
def evaluate_rule (env : Env) (generated_rule expected_rule : String) :
    Except String (List (String × PyVal) × ℚ) :=
  match calculate_langchain_metrics env generated_rule expected_rule with
  | .raised e => .error e
  | .yamlErrorTuple _ _ =>
    match env.judge generated_rule expected_rule with
    | .error e => .error e
    | .ok _ => .error mergeTypeError
  | .metricsDict m =>
    match env.judge generated_rule expected_rule with
    | .error e => .error e
    | .ok j =>
      let combined := (m.map (fun p => (p.1, PyVal.num p.2))) ++ [("llm_judgment", j)]
      match calculate_combined_score env.lib combined with
      | .error _ => .error "TypeError: unsupported operand"
      | .ok s => .ok (combined, s)

/-- A test case (`query_rule_pairs.json` entry). -/
structure TestCase where
  query : String
  expected_rule : String

/-- One entry of the result ledger built by `run_evaluation`.  Error
entries carry only `query`, `error`, `metrics = None`,
`overall_score = 0.0` and `llm_judgment_text = None`. -/
structure CaseResult where
  query : String
  generated_rule : Option String
  expected_rule : Option String
  metrics : Option (List (String × PyVal))
  overall_score : ℚ
  error : Option String
  llm_judgment_text : Option PyVal

/-- The body of `run_evaluation`'s `try` block for one case: generate a
rule, then evaluate it. -/
def caseAttempt (env : Env) (tc : TestCase) :
    Except String (String × (List (String × PyVal) × ℚ)) :=
  match env.gen tc.query with
  | .error e => .error e
  | .ok rule =>
    match evaluate_rule env rule tc.expected_rule with
    | .error e => .error e
    | .ok r => .ok (rule, r)

/-- One iteration of `run_evaluation`'s loop: append a fully populated
entry on success, an error entry when the `try` block raised. -/
def processCase (env : Env) (tc : TestCase) : CaseResult :=
  match caseAttempt env tc with
  | .error e =>
      { query := tc.query, generated_rule := Option.none,
        expected_rule := Option.none, metrics := Option.none,
        overall_score := 0, error := some e,
        llm_judgment_text := Option.none }
  | .ok (rule, m, s) =>
      { query := tc.query, generated_rule := some rule,
        expected_rule := some tc.expected_rule, metrics := some m,
        overall_score := s, error := Option.none,
        llm_judgment_text := dictLookup m "llm_judgment" }

/-- The required-configuration key list of `run_evaluation`. -/
def requiredConfig : List String :=
  ["RULE_GENERATOR_URL", "SERVICE_API_KEY", "OPENAI_ASSISTANT_ID", "JUDGE_ASSISTANT_ID"]

/-- `run_evaluation` (`src/evaluation/evaluate.py` lines 232-278):
validate the configuration, then process every test case in order,
appending one ledger entry per case. -/
def run_evaluation (env : Env) (config : List String) (cases : List TestCase) :
    Except String (List CaseResult) :=
  if requiredConfig.all (fun k => config.contains k) then
    .ok (cases.map (processCase env))
  else
    .error "Missing required configuration"

/-- The run summary printed by `main`. -/
structure RunSummary where
  total_cases : ℕ
  successful_cases : ℕ
  average_score : ℚ

/-- The summary computation of `main` (`src/evaluation/evaluate.py` lines
320-328).  The division `sum(...) / total_cases` is unguarded, so an empty
ledger raises `ZeroDivisionError` (modelled as `.error`). -/
def mainSummary (results : List CaseResult) : Except Unit RunSummary :=
  let total := results.length
  let successful := (results.filter (fun r => r.metrics.isSome)).length
  if total = 0 then .error ()
  else .ok { total_cases := total, successful_cases := successful,
             average_score := (results.map (fun r => r.overall_score)).sum / (total : ℚ) }

/-- An HTTP response from the rule-generator service, as far as the
clients inspect it. -/
structure HttpResponse where
  status : ℕ
  /-- The `Retry-After` header, when present. -/
  retryAfter : Option ℕ
  /-- The decoded JSON body. -/
  body : PyVal

/-- `get_judge_comparison` (`src/evaluation/evaluate.py` lines 65-92) over
an abstract stream of successive HTTP responses.  Returns the number of
requests issued, the list of sleep durations performed, and the outcome.
The function issues exactly one request and has no `429` handling: any
status `>= 400` makes `raise_for_status` raise and is re-raised as a
case-level `Exception`. -/
def get_judge_comparison (responses : List HttpResponse) :
    ℕ × List ℕ × Except String PyVal :=
  match responses with
  | [] => (0, [], .error "Failed to get judgment: connection error")
  | r :: _ =>
    if 400 ≤ r.status then
      (1, [], .error "Failed to get judgment: HTTP error")
    else
      match r.body with
      | .dict d =>
        match dictLookup d "judgment" with
        | some j => (1, [], .ok j)
        | Option.none => (1, [], .error "KeyError: judgment")
      | _ => (1, [], .error "TypeError: response body is not an object")

/-- `generate_rule` of `src/benchmark-ai/evaluation/evaluate.py` (lines
125-163) over a stream of successive HTTP responses: on status `429` it
sleeps for `Retry-After` (default `60`) seconds and retries with the next
response; other error statuses raise.  Accumulates the request count and
the sleeps performed. -/
def generate_rule_bench :
    List HttpResponse → ℕ → List ℕ → ℕ × List ℕ × Except String PyVal
  | [], n, sleeps => (n, sleeps, .error "Failed to generate rule: connection error")
  | r :: rest, n, sleeps =>
    if r.status = 429 then
      generate_rule_bench rest (n + 1) (sleeps ++ [r.retryAfter.getD 60])
    else if 400 ≤ r.status then
      (n + 1, sleeps, .error "Failed to generate rule: HTTP error")
    else
      match r.body with
      | .dict d =>
        match dictLookup d "rule" with
        | some v => (n + 1, sleeps, .ok v)
        | Option.none => (n + 1, sleeps, .error "KeyError: rule")
      | _ => (n + 1, sleeps, .error "TypeError: response body is not an object")

/-- Lookup in a metrics dict whose values are rationals. -/
def metricLookup (m : List (String × ℚ)) (k : String) : Option ℚ :=
  (m.find? (fun p => p.1 == k)).map Prod.snd

/-- A stdlib model in which `json.loads` and `float`-of-string always
raise, as they do on non-JSON / non-numeric strings. -/
def libErr : PyLib := ⟨fun _ => .error (), fun _ => .error ()⟩

/-- A stdlib model in which `json.loads` accepts exactly the string
`{"score": 0.9}` and decodes it to the corresponding object. -/
def libJson : PyLib :=
  ⟨fun s => if s = "\x7b\"score\": 0.9\x7d" then
      .ok (.dict [("score", .num (9/10))]) else .error (),
   fun _ => .error ()⟩

/-- A collaborator model whose rule generator always fails with an HTTP
error. -/
def envGenFails : Env :=
  { lib := libErr, yamlLoad := fun _ => .error (),
    evalStrings := fun _ _ => .error (),
    gen := fun _ => .error "Failed to generate rule: HTTP error",
    judge := fun _ _ => .error "Failed to get judgment: HTTP error" }

/-- A collaborator model whose generator returns a candidate that
`yaml.safe_load` rejects, while the judge answers normally. -/
def envYamlError : Env :=
  { lib := libErr, yamlLoad := fun _ => .error (),
    evalStrings := fun _ _ => .error (),
    gen := fun _ => .ok "title: [unclosed",
    judge := fun _ _ => .ok (.str "good") }

/-- A collaborator model in which every document parses to the same rule
mapping and the string-distance evaluator is a normalized distance (`0`
for identical strings, `1` otherwise). -/
def envIdenticalDetection : Env :=
  { lib := libErr,
    yamlLoad := fun _ =>
      .ok (.dict [("title", .str "T"), ("detection", .dict [("sel", .str "x")])]),
    evalStrings := fun a b => .ok (if a = b then 0 else 1),
    gen := fun _ => .error "unused",
    judge := fun _ _ => .ok (.str "good") }

/-- A collaborator model whose generator returns a candidate parsing to
YAML `null` (`None`). -/
def envNullCandidate : Env :=
  { lib := libErr, yamlLoad := fun _ => .ok PyVal.none,
    evalStrings := fun _ _ => .error (),
    gen := fun _ => .ok "null",
    judge := fun _ _ => .ok (.str "good") }

/-- A collaborator model in which every document parses to a plain YAML
string (its own text). -/
def envStrCandidate : Env :=
  { lib := libErr, yamlLoad := fun s => .ok (.str s),
    evalStrings := fun _ _ => .error (),
    gen := fun _ => .ok "title detection logsource",
    judge := fun _ _ => .ok (.str "good") }

/-- A sample failed-case ledger entry. -/
def sampleErrorResult : CaseResult :=
  { query := "q", generated_rule := Option.none, expected_rule := Option.none,
    metrics := Option.none, overall_score := 0, error := some "boom",
    llm_judgment_text := Option.none }

/-! ## Helper lemmas -/

lemma dictLookup_isNum_of_all {d : List (String × PyVal)} {k : String} {v : PyVal}
    (hall : ∀ p ∈ d, p.2.isNum = true) (h : dictLookup d k = some v) :
    v.isNum = true := by
  cases hf : d.find? (fun p => p.1 == k) with
  | none => simp [dictLookup, hf] at h
  | some p =>
    have hm := List.mem_of_find?_eq_some hf
    simp [dictLookup, hf] at h
    exact h ▸ hall p hm

lemma weightedSum_ok_of_num {d : List (String × PyVal)}
    (hall : ∀ p ∈ d, p.2.isNum = true) :
    ∀ ws : List (String × ℚ), ∃ s, weightedSum d ws = .ok s := by
  intro ws
  induction ws with
  | nil => exact ⟨0, rfl⟩
  | cons kw ws ih =>
    obtain ⟨s, hs⟩ := ih
    cases h : dictLookup d kw.1 with
    | none => exact ⟨s, by simp [weightedSum, h, hs]⟩
    | some v =>
      have hn := dictLookup_isNum_of_all hall h
      cases v with
      | num q => exact ⟨q * kw.2 + s, by simp [weightedSum, h, hs, pyMulFloat]⟩
      | none => simp [PyVal.isNum] at hn
      | bool b => simp [PyVal.isNum] at hn
      | str s2 => simp [PyVal.isNum] at hn
      | list xs => simp [PyVal.isNum] at hn
      | dict d2 => simp [PyVal.isNum] at hn

lemma mfc_of_lookup_none {lib : PyLib} {metrics : List (String × PyVal)}
    (h : dictLookup metrics "llm_judgment" = Option.none) :
    metricsForCalculation lib metrics = metrics := by
  simp [metricsForCalculation, h]

lemma mfc_of_lookup_some {lib : PyLib} {metrics : List (String × PyVal)} {v : PyVal}
    (h : dictLookup metrics "llm_judgment" = some v) :
    metricsForCalculation lib metrics =
      dictSet metrics "llm_judgment" (.num (extractLlmScore lib v)) := by
  simp [metricsForCalculation, h]

lemma mfc_all_num (lib : PyLib) {metrics : List (String × PyVal)}
    (hnum : ∀ p ∈ metrics, p.1 ≠ "llm_judgment" → p.2.isNum = true) :
    ∀ p ∈ metricsForCalculation lib metrics, p.2.isNum = true := by
  intro p hp
  cases h : dictLookup metrics "llm_judgment" with
  | none =>
    rw [mfc_of_lookup_none h] at hp
    rcases eq_or_ne p.1 "llm_judgment" with he | he
    · exfalso
      have hf : metrics.find? (fun p => p.1 == "llm_judgment") = Option.none := by
        cases hf2 : metrics.find? (fun p => p.1 == "llm_judgment") with
        | none => rfl
        | some q => simp [dictLookup, hf2] at h
      have := List.find?_eq_none.mp hf p hp
      simp [he] at this
    · exact hnum p hp he
  | some v =>
    rw [mfc_of_lookup_some h] at hp
    unfold dictSet at hp
    by_cases hany : (metrics.any fun p => p.1 == "llm_judgment") = true
    · rw [if_pos hany] at hp
      obtain ⟨q, hq, hfq⟩ := List.mem_map.mp hp
      by_cases hk : (q.1 == "llm_judgment") = true
      · rw [if_pos hk] at hfq
        cases hfq
        rfl
      · rw [if_neg hk] at hfq
        cases hfq
        exact hnum p hq (by simpa using hk)
    · rw [if_neg hany] at hp
      rcases List.mem_append.mp hp with hmem | hmem
      · rcases eq_or_ne p.1 "llm_judgment" with he | he
        · exact absurd (List.any_eq_true.mpr ⟨p, hmem, by simp [he]⟩) hany
        · exact hnum p hmem he
      · simp only [List.mem_singleton] at hmem
        cases hmem
        rfl

lemma pyMin_pyMax_clamp (s : ℚ) :
    0 ≤ pyMin (pyMax s 0) 1 ∧ pyMin (pyMax s 0) 1 ≤ 1 := by
  unfold pyMin pyMax
  split_ifs <;> constructor <;> linarith

/-! ## Claim theorems -/

/-- C1: for every metric set handed to `calculate_combined_score` whose
metric values are numbers (the `llm_judgment` entry may be any value, as
it is normalized first), the function returns an overall score and that
score lies in `[0, 1]` — the weighted sum is clamped by
`min(max(overall_score, 0.0), 1.0)`. -/
theorem combined_score_in_unit_interval (lib : PyLib)
    (metrics : List (String × PyVal))
    (hnum : ∀ p ∈ metrics, p.1 ≠ "llm_judgment" → p.2.isNum = true) :
    ∃ s : ℚ, calculate_combined_score lib metrics = .ok s ∧ 0 ≤ s ∧ s ≤ 1 := by
  obtain ⟨s, hs⟩ := weightedSum_ok_of_num (mfc_all_num lib hnum) weights
  obtain ⟨h0, h1⟩ := pyMin_pyMax_clamp s
  exact ⟨pyMin (pyMax s 0) 1, by simp [calculate_combined_score, hs], h0, h1⟩

/-- Witness for C1: a concrete metric set with an out-of-range metric
value and a non-numeric judgment still yields a score in `[0, 1]`. -/
theorem combined_score_in_unit_interval_witness :
    ∃ s : ℚ, calculate_combined_score libErr
      [("valid_yaml", .num 100), ("has_required_fields", .num (-3)),
       ("llm_judgment", .dict [])] = .ok s ∧ 0 ≤ s ∧ s ≤ 1 :=
  combined_score_in_unit_interval libErr _ (by
    intro p hp hne
    simp only [List.mem_cons, List.not_mem_nil, or_false] at hp
    rcases hp with rfl | rfl | rfl
    · rfl
    · rfl
    · exact absurd rfl hne)

/-- C5 counterexample: a judge response that is *already* a structured
mapping `{"score": 0.9}` (not a JSON string) does **not** yield judgment
score `0.9`.  The non-string branch of the normalization applies `float()`
to the mapping, which raises `TypeError`, and the handler substitutes the
default `0.5`.  (`json.loads` is never consulted for non-strings, so the
stdlib model is irrelevant here.) -/
theorem structured_judgment_score_ignored :
    extractLlmScore libErr (.dict [("score", .num (9/10))]) = 1/2 ∧
      ((1 : ℚ)/2 ≠ 9/10) := by
  refine ⟨rfl, by norm_num⟩

/-- C5 amended: only a judge response that is a *string* parsing as JSON
to a mapping has its `score` field used as the judgment score; a response
that is already a structured mapping is never inspected for `score` —
`float()` on it raises `TypeError` and the default `0.5` is used. -/
theorem json_string_judgment_score_used (lib : PyLib) (s : String)
    (d : List (String × PyVal)) (q : ℚ)
    (hj : lib.jsonLoads s = .ok (.dict d))
    (hs : dictLookup d "score" = some (.num q)) :
    extractLlmScore lib (.str s) = q ∧
      ∀ d2 : List (String × PyVal), extractLlmScore lib (.dict d2) = 1/2 := by
  constructor
  · simp [extractLlmScore, hj, hs, pyFloat]
  · intro d2
    rfl

/-- Witness for the amended C5: with a stdlib model decoding the string
`{"score": 0.9}` to its JSON object, the judgment score is `0.9`, while
the already-structured mapping defaults to `0.5`. -/
theorem json_string_judgment_score_used_witness :
    extractLlmScore libJson (.str "\x7b\"score\": 0.9\x7d") = 9/10 ∧
      ∀ d2 : List (String × PyVal), extractLlmScore libJson (.dict d2) = 1/2 :=
  json_string_judgment_score_used libJson _ [("score", .num (9/10))] (9/10)
    rfl rfl

/-- C6 (code bug): the bare judge response `"good"` is not valid JSON, so
`json.loads` raises `json.JSONDecodeError`; the `except` clause catches it
and substitutes the default `0.5`.  The `score_mapping` table — which was
meant to map `"good"` to `0.75`, as its second conjunct shows — sits in
the branch reached only when `json.loads` *succeeds* with a non-object,
which no bare quality word can do, so it is dead code for them. -/
theorem quality_word_good_gets_default (lib : PyLib)
    (hj : lib.jsonLoads "good" = .error ()) :
    extractLlmScore lib (.str "good") = 1/2 ∧ scoreMapping "good" = 3/4 := by
  constructor
  · simp [extractLlmScore, hj]
  · rfl

/-- Witness for C6: with the stdlib model that (like Python) rejects
`"good"` as JSON, the judgment score is the default `0.5`. -/
theorem quality_word_good_gets_default_witness :
    extractLlmScore libErr (.str "good") = 1/2 ∧ scoreMapping "good" = 3/4 :=
  quality_word_good_gets_default libErr rfl

/-- C7 counterexample: a bare numeric judge response `0.9` matches none of
the claim's recognized score formats (it is not a mapping with a `score`
field, not a JSON string, not a quality word), yet the normalization does
**not** return the default `0.5`: the non-string branch converts it with
`float()` and uses the value `0.9` directly. -/
theorem numeric_judgment_bypasses_default :
    extractLlmScore libErr (.num (9/10)) = 9/10 ∧ ((9 : ℚ)/10 ≠ 1/2) :=
  ⟨rfl, by norm_num⟩

/-- C7 amended: the extraction step never raises — `extractLlmScore` is a
total function, every exception of the block being caught by the
`except (ValueError, AttributeError, TypeError, json.JSONDecodeError)`
clause — and the default `0.5` is returned exactly when a conversion
fallback fails: a string `json.loads` rejects, a non-string `float()`
rejects, or a string parsing as JSON to a mapping without a `score` field.
But a non-string response that `float()` accepts — a number or a boolean —
yields its `float()` value (`0.9` yields `0.9`, `True` yields `1.0`), not
the default, even though it matches none of the claim's recognized
formats. -/
theorem judgment_extraction_fallbacks (lib : PyLib) :
    (∀ s : String, lib.jsonLoads s = .error () →
      extractLlmScore lib (.str s) = 1/2) ∧
    (∀ v : PyVal, v.isStr = false → pyFloat lib v = .error () →
      extractLlmScore lib v = 1/2) ∧
    (∀ (s : String) (d : List (String × PyVal)),
      lib.jsonLoads s = .ok (.dict d) → dictLookup d "score" = Option.none →
      extractLlmScore lib (.str s) = 1/2) ∧
    (∀ q : ℚ, extractLlmScore lib (.num q) = q) ∧
    (∀ b : Bool, extractLlmScore lib (.bool b) = if b then 1 else 0) := by
  refine ⟨?_, ?_, ?_, ?_, ?_⟩
  · intro s hj
    simp [extractLlmScore, hj]
  · intro v hstr hf
    cases v with
    | str s => simp [PyVal.isStr] at hstr
    | none => simp [extractLlmScore, hf]
    | bool b => simp [pyFloat] at hf
    | num q => simp [pyFloat] at hf
    | list xs => simp [extractLlmScore, hf]
    | dict d => simp [extractLlmScore, hf]
  · intro s d hj hd
    simp [extractLlmScore, hj, hd, pyFloat]
  · intro q
    rfl
  · intro b
    cases b <;> rfl

/-- Witness for the amended C7: the unparseable string `"gibberish"`, a
mapping response (rejected by `float()`) and a score-less JSON object all
default to `0.5`, while the bare numeric response `0.9` yields `0.9`. -/
theorem judgment_extraction_fallbacks_witness :
    extractLlmScore libErr (.str "gibberish") = 1/2 ∧
    extractLlmScore libErr (.dict [("foo", .num 1)]) = 1/2 ∧
    extractLlmScore libErr (.num (9/10)) = 9/10 :=
  ⟨(judgment_extraction_fallbacks libErr).1 "gibberish" rfl,
   (judgment_extraction_fallbacks libErr).2.1 (.dict [("foo", .num 1)]) rfl rfl,
   (judgment_extraction_fallbacks libErr).2.2.2.1 (9/10)⟩

/-- C8 counterexample: the division `sum(...) / total_cases` in `main` is
*not* guarded against `total_cases == 0` — on an empty ledger the summary
computation raises `ZeroDivisionError` (modelled as `.error`). -/
theorem main_summary_zero_division_unguarded :
    mainSummary [] = .error () := rfl

/-- C8 amended: on a non-empty ledger the summary satisfies
`total_cases = len(ledger)`, `successful_cases = #{metrics is not None}`
(hence `successful_cases ≤ total_cases`), and `average_score` is the
arithmetic mean of `overall_score` over all entries; the division is not
guarded, so the empty ledger is excluded. -/
theorem main_summary_stats (results : List CaseResult) (h : results ≠ []) :
    ∃ s, mainSummary results = .ok s ∧
      s.total_cases = results.length ∧
      s.successful_cases = (results.filter (fun r => r.metrics.isSome)).length ∧
      s.successful_cases ≤ s.total_cases ∧
      s.average_score =
        (results.map (fun r => r.overall_score)).sum / (results.length : ℚ) := by
  have hlen : results.length ≠ 0 := by simpa using h
  refine ⟨{ total_cases := results.length,
            successful_cases := (results.filter (fun r => r.metrics.isSome)).length,
            average_score :=
              (results.map (fun r => r.overall_score)).sum / (results.length : ℚ) },
          ?_, rfl, rfl, List.length_filter_le _ _, rfl⟩
  simp [mainSummary, hlen]

/-- Witness for the amended C8: the summary of a one-entry ledger. -/
theorem main_summary_stats_witness :
    ∃ s, mainSummary [sampleErrorResult] = .ok s ∧
      s.total_cases = [sampleErrorResult].length ∧
      s.successful_cases =
        ([sampleErrorResult].filter (fun r => r.metrics.isSome)).length ∧
      s.successful_cases ≤ s.total_cases ∧
      s.average_score =
        ([sampleErrorResult].map (fun r => r.overall_score)).sum /
          (([sampleErrorResult] : List CaseResult).length : ℚ) :=
  main_summary_stats [sampleErrorResult] (by simp)

/-- C9 counterexample: a rate-limited judge call is **not** retried.  With
a `429` response (carrying `Retry-After: 2`) available and a successful
response queued behind it, `get_judge_comparison` issues exactly one
request, performs no sleep, and surfaces the `429` as a case-level error
instead of retrying. -/
theorem judge_429_surfaces_error :
    get_judge_comparison
      [{ status := 429, retryAfter := some 2,
         body := .dict [("judgment", .str "good")] },
       { status := 200, retryAfter := Option.none,
         body := .dict [("judgment", .str "good")] }] =
      (1, [], .error "Failed to get judgment: HTTP error") := rfl

/-- C9 amended: `get_judge_comparison` has no `429` special-casing — any
status `≥ 400`, including `429`, is raised by `raise_for_status` and
surfaces as a case-level error after a single request with no sleep.  The
sleep-for-`Retry-After`-and-retry contract is implemented only by the
benchmark-ai `generate_rule` for the rules endpoint, as the second
conjunct shows. -/
theorem judge_429_not_retried_vs_bench (r : HttpResponse)
    (rest : List HttpResponse) (h : r.status = 429) :
    get_judge_comparison (r :: rest) =
      (1, [], .error "Failed to get judgment: HTTP error") ∧
    ∀ n sleeps, generate_rule_bench (r :: rest) n sleeps =
      generate_rule_bench rest (n + 1) (sleeps ++ [r.retryAfter.getD 60]) := by
  constructor
  · have h4 : 400 ≤ r.status := by omega
    simp [get_judge_comparison, h4]
  · intro n sleeps
    simp [generate_rule_bench, h]

/-- Witness for the amended C9: a concrete `429` response with
`Retry-After: 2`. -/
theorem judge_429_not_retried_vs_bench_witness :
    get_judge_comparison
      [{ status := 429, retryAfter := some 2, body := PyVal.none }] =
      (1, [], .error "Failed to get judgment: HTTP error") ∧
    ∀ n sleeps, generate_rule_bench
        [{ status := 429, retryAfter := some 2, body := PyVal.none }] n sleeps =
      generate_rule_bench [] (n + 1) (sleeps ++ [2]) :=
  judge_429_not_retried_vs_bench _ [] rfl

lemma countPresent_dict_ok (g : List (String × PyVal)) :
    ∀ fs : List String, ∃ q, countPresent (.dict g) fs = .ok q := by
  intro fs
  induction fs with
  | nil => exact ⟨0, rfl⟩
  | cons f fs ih =>
    obtain ⟨q, hq⟩ := ih
    refine ⟨(if (g.any fun p => p.1 == f) = true then (1 : ℚ) else 0) + q, ?_⟩
    simp [countPresent, pyIn, hq]

lemma countPresent_str (s : String) :
    ∀ fs : List String,
      countPresent (.str s) fs =
        .ok (((fs.filter (fun f => strIn f s)).length : ℚ)) := by
  intro fs
  induction fs with
  | nil => rfl
  | cons f fs ih =>
    simp only [countPresent, pyIn, ih, List.filter_cons]
    cases hf : strIn f s
    · simp [hf]
    · simp only [hf, if_pos, List.length_cons, if_true]
      push_cast
      ring_nf

lemma calculate_langchain_metrics_dict (env : Env) {cand exp : String}
    {g e : List (String × PyVal)}
    (hg : env.yamlLoad cand = .ok (.dict g))
    (he : env.yamlLoad exp = .ok (.dict e)) :
    ∃ req meta, calculate_langchain_metrics env cand exp =
      .metricsDict
        [("valid_yaml", 1), ("has_required_fields", req),
         ("detection_logic_similarity",
           detectionSimilarity env (.dict g) (.dict e)),
         ("metadata_completeness", meta)] := by
  obtain ⟨cr, hcr⟩ := countPresent_dict_ok g requiredFields
  obtain ⟨cm, hcm⟩ := countPresent_dict_ok g metadataFields
  refine ⟨cr / ((requiredFields.length : ℚ)), cm / ((metadataFields.length : ℚ)), ?_⟩
  simp [calculate_langchain_metrics, hg, he, fieldsPresent, hcr, hcm]

/-- C2: `run_evaluation` (with a valid configuration) returns a ledger of
exactly one entry per test case, in input order (entry `i` carries the
query of case `i`); a case whose generation-and-evaluation attempt raises
yields an entry with `error` set, `metrics = None` and
`overall_score = 0.0`, and the remaining cases are unaffected. -/
theorem run_evaluation_isolates_failures (env : Env) (config : List String)
    (cases : List TestCase)
    (hcfg : requiredConfig.all (fun k => config.contains k) = true) :
    ∃ results : List CaseResult, run_evaluation env config cases = .ok results ∧
      results.length = cases.length ∧
      ∀ (i : ℕ) (c : TestCase), cases[i]? = some c →
        ∃ r : CaseResult, results[i]? = some r ∧ r.query = c.query ∧
          ∀ err, caseAttempt env c = .error err →
            r.error = some err ∧ r.metrics = Option.none ∧
              r.overall_score = 0 := by
  refine ⟨cases.map (processCase env), ?_, by simp, ?_⟩
  · simp only [run_evaluation]
    rw [if_pos hcfg]
  intro i c hc
  refine ⟨processCase env c, by simp [List.getElem?_map, hc], ?_, ?_⟩
  · cases h : caseAttempt env c with
    | error e => simp [processCase, h]
    | ok v =>
      obtain ⟨rule, m, s⟩ := v
      simp [processCase, h]
  · intro err herr
    simp [processCase, herr]

/-- Witness for C2: a one-case batch whose generator call fails still
produces a one-entry ledger with the error recorded. -/
theorem run_evaluation_isolates_failures_witness :
    ∃ results : List CaseResult, run_evaluation envGenFails requiredConfig
        [{ query := "q1", expected_rule := "e1" }] = .ok results ∧
      results.length = [({ query := "q1", expected_rule := "e1" } : TestCase)].length ∧
      ∀ (i : ℕ) (c : TestCase),
        [({ query := "q1", expected_rule := "e1" } : TestCase)][i]? = some c →
        ∃ r : CaseResult, results[i]? = some r ∧ r.query = c.query ∧
          ∀ err, caseAttempt envGenFails c = .error err →
            r.error = some err ∧ r.metrics = Option.none ∧
              r.overall_score = 0 :=
  run_evaluation_isolates_failures envGenFails requiredConfig _ (by decide)

/-- C3 (code bug): when the candidate fails YAML parsing, the
`yaml.YAMLError` handler of `calculate_langchain_metrics` returns the
zeroed metrics as a `(dict, 0.0)` *tuple* while the success path returns a
bare dict; the merge `{**langchain_metrics, ...}` in `evaluate_rule` then
raises `TypeError` on the tuple, so the case is recorded by the batch
runner as an *error entry* (`metrics = None`, `overall_score = 0.0`) —
not reported with the zeroed metric set as the claim states. -/
theorem yaml_error_case_becomes_error_entry (env : Env) (tc : TestCase)
    (cand : String) (j : PyVal)
    (hgen : env.gen tc.query = .ok cand)
    (hy : env.yamlLoad cand = .error ())
    (hj : env.judge cand tc.expected_rule = .ok j) :
    calculate_langchain_metrics env cand tc.expected_rule =
      .yamlErrorTuple zeroMetrics 0 ∧
    evaluate_rule env cand tc.expected_rule = .error mergeTypeError ∧
    (processCase env tc).metrics = Option.none ∧
    (processCase env tc).error = some mergeTypeError ∧
    (processCase env tc).overall_score = 0 := by
  have h1 : calculate_langchain_metrics env cand tc.expected_rule =
      .yamlErrorTuple zeroMetrics 0 := by
    simp [calculate_langchain_metrics, hy]
  have h2 : evaluate_rule env cand tc.expected_rule = .error mergeTypeError := by
    simp [evaluate_rule, h1, hj]
  have h3 : caseAttempt env tc = .error mergeTypeError := by
    simp [caseAttempt, hgen, h2]
  exact ⟨h1, h2, by simp [processCase, h3], by simp [processCase, h3],
    by simp [processCase, h3]⟩

/-- Witness for C3: a malformed candidate (`"title: [unclosed"`) with a
normally-answering judge ends as an error entry. -/
theorem yaml_error_case_becomes_error_entry_witness :
    calculate_langchain_metrics envYamlError "title: [unclosed" "exp" =
      .yamlErrorTuple zeroMetrics 0 ∧
    evaluate_rule envYamlError "title: [unclosed" "exp" = .error mergeTypeError ∧
    (processCase envYamlError { query := "q", expected_rule := "exp" }).metrics =
      Option.none ∧
    (processCase envYamlError { query := "q", expected_rule := "exp" }).error =
      some mergeTypeError ∧
    (processCase envYamlError { query := "q", expected_rule := "exp" }).overall_score
      = 0 :=
  yaml_error_case_becomes_error_entry envYamlError
    { query := "q", expected_rule := "exp" } "title: [unclosed" (.str "good")
    rfl rfl rfl

/-- C4 (code bug): the code stores the string-distance evaluator's *raw*
score as `detection_logic_similarity`, with no `1 − distance` inversion
and no clamping.  For any evaluator that is a distance (score `0` on
identical strings — true of langchain's normalized string-edit distances),
a candidate and expected rule with *identical* detection sub-mappings
therefore get `detection_logic_similarity = 0.0`, not the `1.0` the claim
states. -/
theorem identical_detection_gets_distance_zero (env : Env)
    (cand exp : String) (g e : List (String × PyVal))
    (hg : env.yamlLoad cand = .ok (.dict g))
    (he : env.yamlLoad exp = .ok (.dict e))
    (hdet : dictLookup g "detection" = dictLookup e "detection")
    (hdist : ∀ x, env.evalStrings x x = .ok 0) :
    ∃ m, calculate_langchain_metrics env cand exp = .metricsDict m ∧
      metricLookup m "detection_logic_similarity" = some 0 ∧
      metricLookup m "valid_yaml" = some 1 := by
  have hsim : detectionSimilarity env (.dict g) (.dict e) = 0 := by
    simp [detectionSimilarity, pyGet, hdet, hdist]
  obtain ⟨req, meta, hm⟩ := calculate_langchain_metrics_dict env hg he
  rw [hsim] at hm
  exact ⟨_, hm, by simp [metricLookup], by simp [metricLookup]⟩

/-- Witness for C4: identical candidate and expected documents under a
normalized-distance evaluator yield similarity `0`. -/
theorem identical_detection_gets_distance_zero_witness :
    ∃ m, calculate_langchain_metrics envIdenticalDetection "rule" "rule" =
        .metricsDict m ∧
      metricLookup m "detection_logic_similarity" = some 0 ∧
      metricLookup m "valid_yaml" = some 1 :=
  identical_detection_gets_distance_zero envIdenticalDetection "rule" "rule"
    [("title", .str "T"), ("detection", .dict [("sel", .str "x")])]
    [("title", .str "T"), ("detection", .dict [("sel", .str "x")])]
    rfl rfl rfl (by intro x; simp [envIdenticalDetection])

/-- C10: (a) a candidate accepted by the YAML parser but parsing to `None`
or a number makes the top-level `field in generated` test raise
`TypeError`, which is not caught by the `yaml.YAMLError` handler, so the
batch runner records the case as an error entry (`metrics = None`,
`overall_score = 0.0`); (b) a candidate parsing to a plain string gets
`valid_yaml = 1.0`, and each required field is counted as present exactly
when its name occurs as a substring of that string. -/
theorem non_mapping_candidate_behavior :
    (∀ (env : Env) (tc : TestCase) (cand : String) (v : PyVal),
      env.gen tc.query = .ok cand →
      env.yamlLoad cand = .ok v →
      (v = PyVal.none ∨ ∃ q, v = PyVal.num q) →
      (processCase env tc).error.isSome = true ∧
      (processCase env tc).metrics = Option.none ∧
      (processCase env tc).overall_score = 0) ∧
    (∀ (env : Env) (cand exp s : String) (ev : PyVal),
      env.yamlLoad cand = .ok (.str s) →
      env.yamlLoad exp = .ok ev →
      ∃ sim meta,
        calculate_langchain_metrics env cand exp =
          .metricsDict
            [("valid_yaml", 1),
             ("has_required_fields",
               ((requiredFields.filter (fun f => strIn f s)).length : ℚ) /
                 ((requiredFields.length : ℚ))),
             ("detection_logic_similarity", sim),
             ("metadata_completeness", meta)]) := by
  constructor
  · intro env tc cand v hgen hy hv
    have hcp : countPresent v requiredFields = .error () := by
      rcases hv with rfl | ⟨q, rfl⟩ <;> rfl
    have herr : ∃ err, evaluate_rule env cand tc.expected_rule = .error err := by
      cases hexp : env.yamlLoad tc.expected_rule with
      | error u =>
        have h1 : calculate_langchain_metrics env cand tc.expected_rule =
            .yamlErrorTuple zeroMetrics 0 := by
          simp [calculate_langchain_metrics, hy, hexp]
        cases hj : env.judge cand tc.expected_rule with
        | error e2 => exact ⟨e2, by simp [evaluate_rule, h1, hj]⟩
        | ok j => exact ⟨mergeTypeError, by simp [evaluate_rule, h1, hj]⟩
      | ok ev =>
        have h1 : calculate_langchain_metrics env cand tc.expected_rule =
            .raised "TypeError: argument is not iterable" := by
          simp [calculate_langchain_metrics, hy, hexp, fieldsPresent, hcp]
        exact ⟨"TypeError: argument is not iterable",
          by simp [evaluate_rule, h1]⟩
    obtain ⟨err, herr⟩ := herr
    have hca : caseAttempt env tc = .error err := by
      simp [caseAttempt, hgen, herr]
    refine ⟨?_, ?_, ?_⟩ <;> simp [processCase, hca]
  · intro env cand exp s ev hy hexp
    have hreq : fieldsPresent requiredFields (.str s) =
        .ok (((requiredFields.filter (fun f => strIn f s)).length : ℚ) /
          ((requiredFields.length : ℚ))) := by
      simp [fieldsPresent, countPresent_str]
    have hmeta : fieldsPresent metadataFields (.str s) =
        .ok (((metadataFields.filter (fun f => strIn f s)).length : ℚ) /
          ((metadataFields.length : ℚ))) := by
      simp [fieldsPresent, countPresent_str]
    refine ⟨detectionSimilarity env (.str s) ev,
      ((metadataFields.filter (fun f => strIn f s)).length : ℚ) /
        ((metadataFields.length : ℚ)), ?_⟩
    simp [calculate_langchain_metrics, hy, hexp, hreq, hmeta]

/-- Witness for C10: a candidate parsing to `None` ends as an error entry,
and a candidate parsing to the plain string
`"title detection logsource"` gets metrics computed by substring tests. -/
theorem non_mapping_candidate_behavior_witness :
    ((processCase envNullCandidate
        { query := "q", expected_rule := "exp" }).error.isSome = true ∧
     (processCase envNullCandidate
        { query := "q", expected_rule := "exp" }).metrics = Option.none ∧
     (processCase envNullCandidate
        { query := "q", expected_rule := "exp" }).overall_score = 0) ∧
    (∃ sim meta,
      calculate_langchain_metrics envStrCandidate
          "title detection logsource" "exp" =
        .metricsDict
          [("valid_yaml", 1),
           ("has_required_fields",
             ((requiredFields.filter
                (fun f => strIn f "title detection logsource")).length : ℚ) /
               ((requiredFields.length : ℚ))),
           ("detection_logic_similarity", sim),
           ("metadata_completeness", meta)]) :=
  ⟨non_mapping_candidate_behavior.1 envNullCandidate
      { query := "q", expected_rule := "exp" } "null" PyVal.none rfl rfl
      (Or.inl rfl),
   non_mapping_candidate_behavior.2 envStrCandidate
      "title detection logsource" "exp" "title detection logsource"
      (.str "exp") rfl rfl⟩

end SigmaEval
